import Mathlib

/-!
Shallow embedding of the `reveal-data-client` repository (Python) in Lean 4,
covering the coarse-time-series validation checks, the coarse time-series
client (segment queries, enumeration, file loading, LRU caching) and the
stimulation-setting resolver.  Every definition is translated from the Python
source under `src/`; machine integers are modelled as `Int`/`Nat`, the
`LabChartTime` / `timedelta` values as `Int` nanosecond counts (the exact
pandas `Timedelta` resolution), other numeric parameters as `Rat`, and
Python exceptions as `Except String`.
-/

set_option maxRecDepth 10000

/-- Enum `AnsPeriod` from `reveal_data_client/constants.py`: the possible
values for the ANS period column. -/
inductive AnsPeriod
  | REST
  | STIM1
  | STIM2
  | STIM3
  | IHG
  | PECO
  | HUT
  | BASELINE_IHG
  | RECOVERY_PECO
  | BASELINE_HUT
  | RECOVERY_HUT
deriving DecidableEq, Repr, Fintype

/-- Backing string of each `AnsPeriod` member (the enum is a `str` enum in
the source; `BASELINE_IHG = "BASEIHG"` etc.). -/
def AnsPeriod.value : AnsPeriod → String
  | .REST => "REST"
  | .STIM1 => "STIM1"
  | .STIM2 => "STIM2"
  | .STIM3 => "STIM3"
  | .IHG => "IHG"
  | .PECO => "PECO"
  | .HUT => "HUT"
  | .BASELINE_IHG => "BASEIHG"
  | .RECOVERY_PECO => "RECPECO"
  | .BASELINE_HUT => "BASEHUT"
  | .RECOVERY_HUT => "RECHUT"

/-- Value lookup `AnsPeriod(token)` of the Python `Enum` class: yields the
member whose backing string equals the token, `none` for an unknown token
(where Python raises `ValueError`). -/
def AnsPeriod.ofString (s : String) : Option AnsPeriod :=
  if s = "REST" then some .REST
  else if s = "STIM1" then some .STIM1
  else if s = "STIM2" then some .STIM2
  else if s = "STIM3" then some .STIM3
  else if s = "IHG" then some .IHG
  else if s = "PECO" then some .PECO
  else if s = "HUT" then some .HUT
  else if s = "BASEIHG" then some .BASELINE_IHG
  else if s = "RECPECO" then some .RECOVERY_PECO
  else if s = "BASEHUT" then some .BASELINE_HUT
  else if s = "RECHUT" then some .RECOVERY_HUT
  else none

/-- Enum `VisitID` from `reveal_data_client/constants.py`. -/
inductive VisitID
  | SV1
  | SV2
deriving DecidableEq, Repr, Fintype

/-- Backing string of each `VisitID` member. -/
def VisitID.value : VisitID → String
  | .SV1 => "SV1"
  | .SV2 => "SV2"

/-- Value lookup `VisitID(token)`; `none` models Python `ValueError`. -/
def VisitID.ofString (s : String) : Option VisitID :=
  if s = "SV1" then some .SV1
  else if s = "SV2" then some .SV2
  else none

/-- Enum `VnsStatus` from `reveal_data_client/constants.py`. -/
inductive VnsStatus
  | ON
  | OFF
deriving DecidableEq, Repr, Fintype

/-- Backing string of each `VnsStatus` member. -/
def VnsStatus.value : VnsStatus → String
  | .ON => "ON"
  | .OFF => "OFF"

/-- Value lookup `VnsStatus(token)`; `none` models Python `ValueError`. -/
def VnsStatus.ofString (s : String) : Option VnsStatus :=
  if s = "ON" then some .ON
  else if s = "OFF" then some .OFF
  else none

/-- Enum `CsvColumn` from `reveal_data_client/time_series/coarse/constants.py`:
the columns of the coarse time-series CSV file. -/
inductive CsvColumn
  | PARTICIPANT_ID
  | VISIT_ID
  | ANS_PERIOD
  | ANS_STATUS
  | LAB_CHART_TIME
  | ECG
  | NIBP
  | HANDGRIP
  | RESPIRATORY_WAVEFORM
  | SYSTOLIC
  | DIASTOLIC
  | MEAN
  | HEART_RATE
  | RAW_MSNA
  | FILTERED_MSNA
  | RMS_MSNA
  | RESPIRATORY_RATE
  | PERCENT_MVC
  | STIMULATOR
  | INTEGRATED_MSNA
  | COMMENT
deriving DecidableEq, Repr, Fintype

/-- Backing string of each `CsvColumn` member. -/
def CsvColumn.value : CsvColumn → String
  | .PARTICIPANT_ID => "Participant_ID"
  | .VISIT_ID => "Visit_ID"
  | .ANS_PERIOD => "ANS_Period"
  | .ANS_STATUS => "ANS_Status"
  | .LAB_CHART_TIME => "LabChartTime"
  | .ECG => "ECG"
  | .NIBP => "NIBP"
  | .HANDGRIP => "Handgrip"
  | .RESPIRATORY_WAVEFORM => "Respiratory_Waveform"
  | .SYSTOLIC => "Systolic"
  | .DIASTOLIC => "Diastolic"
  | .MEAN => "Mean"
  | .HEART_RATE => "HR"
  | .RAW_MSNA => "Raw MSNA"
  | .FILTERED_MSNA => "Filtered_MSNA"
  | .RMS_MSNA => "RMS_MSNA"
  | .RESPIRATORY_RATE => "Respiratory Rate"
  | .PERCENT_MVC => "%MVC"
  | .STIMULATOR => "Stimulator"
  | .INTEGRATED_MSNA => "Integrated_MSNA"
  | .COMMENT => "Comment"

/-- Members of `CsvColumn` in declaration order (Python `for col in cls`
iterates members in definition order). -/
def CsvColumn.members : List CsvColumn :=
  [ .PARTICIPANT_ID, .VISIT_ID, .ANS_PERIOD, .ANS_STATUS, .LAB_CHART_TIME,
    .ECG, .NIBP, .HANDGRIP, .RESPIRATORY_WAVEFORM, .SYSTOLIC, .DIASTOLIC,
    .MEAN, .HEART_RATE, .RAW_MSNA, .FILTERED_MSNA, .RMS_MSNA,
    .RESPIRATORY_RATE, .PERCENT_MVC, .STIMULATOR, .INTEGRATED_MSNA, .COMMENT ]

/-- Classmethod `CsvColumn.required`: the backing strings of every member
except `LAB_CHART_TIME` (the time index). -/
def CsvColumn.required : List String :=
  (CsvColumn.members.filter (fun c => decide (c ≠ CsvColumn.LAB_CHART_TIME))).map CsvColumn.value

/-- Classmethod `CsvColumn.index` from `constants.py`: the name of the time
index column. -/
def CsvColumn.index_name : String := CsvColumn.LAB_CHART_TIME.value

/-- Dataclass `CheckResult` from `reveal_data_client/validation.py`.  The
`details` field defaults to `None` in the source; the embedding passes it
explicitly at every construction site. -/
structure CheckResult where
  name : String
  passed : Bool
  details : Option String
deriving DecidableEq, Repr

/-- Constant `EXPECTED_SAMPLING_RATE` from
`reveal_data_client/time_series/coarse/checks.py` (250 Hz). -/
def EXPECTED_SAMPLING_RATE : ℤ := 250

/-- Constant `EXPECTED_ANS_PERIODS_AND_VNS_STATUS` from `checks.py`, in
source order.  The source value is a Python `set` literal of 16 distinct
pairs; the embedding uses a duplicate-free list with membership treated as
set membership. -/
def EXPECTED_ANS_PERIODS_AND_VNS_STATUS : List (AnsPeriod × VnsStatus) :=
  [ (.STIM1, .ON),
    (.STIM2, .ON),
    (.STIM3, .ON),
    (.REST, .OFF),
    (.IHG, .ON),
    (.IHG, .OFF),
    (.PECO, .ON),
    (.PECO, .OFF),
    (.HUT, .ON),
    (.HUT, .OFF),
    (.BASELINE_IHG, .OFF),
    (.BASELINE_IHG, .ON),
    (.RECOVERY_PECO, .OFF),
    (.RECOVERY_PECO, .ON),
    (.BASELINE_HUT, .OFF),
    (.RECOVERY_HUT, .ON) ]

/-- Renders a list of (period, status) pairs for a diagnostic message
(abstracting the Python `set` repr interpolated by the f-string). -/
def showPairs (l : List (AnsPeriod × VnsStatus)) : String :=
  String.intercalate ", " (l.map (fun p => "(" ++ p.1.value ++ ", " ++ p.2.value ++ ")"))

/-- Renders a list of column names for a diagnostic message (abstracting the
Python `set` repr interpolated by the f-string). -/
def showCols (l : List String) : String := String.intercalate ", " l

/-- Function `check_missing_ans_periods_and_vns_status` from `checks.py`:
fails iff some expected (period, status) pair is absent from the data. -/
def check_missing_ans_periods_and_vns_status
    (periods_and_vns_status : List (AnsPeriod × VnsStatus)) : CheckResult :=
  let missing_values := EXPECTED_ANS_PERIODS_AND_VNS_STATUS.filter
    (fun e => decide (e ∉ periods_and_vns_status))
  if missing_values ≠ [] then
    { name := "check_missing_ans_periods_and_vns_status"
      passed := false
      details := some ("Missing ANS periods and VNS status in the data. Missing: "
        ++ showPairs missing_values) }
  else
    { name := "check_missing_ans_periods_and_vns_status"
      passed := true
      details := none }

/-- Function `check_unexpected_ans_periods_and_vns_status` from `checks.py`:
fails iff some observed (period, status) pair is outside the expected set. -/
def check_unexpected_ans_periods_and_vns_status
    (periods_and_vns_status : List (AnsPeriod × VnsStatus)) : CheckResult :=
  let unexpected_values := periods_and_vns_status.filter
    (fun a => decide (a ∉ EXPECTED_ANS_PERIODS_AND_VNS_STATUS))
  if unexpected_values ≠ [] then
    { name := "check_unexpected_ans_periods_and_vns_status"
      passed := false
      details := some ("Unexpected ANS periods and VNS status in the data. Unexpected: "
        ++ showPairs unexpected_values) }
  else
    { name := "check_unexpected_ans_periods_and_vns_status"
      passed := true
      details := none }

/-- Pandas `DataFrame` as consumed by the per-segment checks: the non-index
column names and the `LabChartTime` index.  A pandas `Timedelta` is an
integer count of nanoseconds, so index entries are modelled as `Int`
nanoseconds; `total_seconds()` of an entry `t` is the real number
`t / 10^9`.  Row count equals the index length. -/
structure Frame where
  columns : List String
  index : List ℤ
deriving DecidableEq, Repr

/-- Function `check_missing_recording_channels` from `checks.py`: fails iff
some required channel is absent from the frame columns. -/
def check_missing_recording_channels (data : Frame) : CheckResult :=
  let missing_channels := CsvColumn.required.filter (fun c => decide (c ∉ data.columns))
  if missing_channels ≠ [] then
    { name := "check_missing_recording_channels"
      passed := false
      details := some ("Missing channels in the data. Missing: " ++ showCols missing_channels) }
  else
    { name := "check_missing_recording_channels"
      passed := true
      details := none }

/-- Function `check_unexpected_recording_channels` from `checks.py`: fails
iff some frame column is outside the required channel set. -/
def check_unexpected_recording_channels (data : Frame) : CheckResult :=
  let unexpected_channels := data.columns.filter (fun c => decide (c ∉ CsvColumn.required))
  if unexpected_channels ≠ [] then
    { name := "check_unexpected_recording_channels"
      passed := false
      details := some ("Unexpected channels in the data. Unexpected: "
        ++ showCols unexpected_channels) }
  else
    { name := "check_unexpected_recording_channels"
      passed := true
      details := none }

/-- Python built-in `round` applied to the fraction `num / den` (`den ≠ 0`):
nearest integer, ties to the even integer (banker's rounding). -/
def pyRound (num den : ℤ) : ℤ :=
  let n := if den < 0 then -num else num
  let d := if den < 0 then -den else den
  let f := n.fdiv d
  let r := n - f * d
  if 2 * r < d then f
  else if d < 2 * r then f + 1
  else if f % 2 = 0 then f else f + 1

/-- Function `check_sampling_rate` from `checks.py`.  The source computes
`elapsed = data.index[-1] - data.index[0]` (a `Timedelta`, here `Int`
nanoseconds) and then `round(len(data) / elapsed.total_seconds())`, i.e.
the rounding of `len * 10^9 / elapsed`; indexing an empty frame raises
`IndexError` and a zero elapsed time raises `ZeroDivisionError`, both
modelled as `Except.error`. -/
def check_sampling_rate (data : Frame) (expected_sampling_rate_hz : ℤ) :
    Except String CheckResult :=
  if h : data.index = [] then
    .error "IndexError: index -1 is out of bounds"
  else
    let elapsed := data.index.getLast h - data.index.head h
    if elapsed = 0 then
      .error "ZeroDivisionError: float division by zero"
    else
      let actual_sampling_rate := pyRound (1000000000 * (data.index.length : ℤ)) elapsed
      if actual_sampling_rate ≠ expected_sampling_rate_hz then
        .ok { name := "check_sampling_rate"
              passed := false
              details := some ("Unexpected sampling rate. Expected: "
                ++ toString expected_sampling_rate_hz ++ ", Actual: "
                ++ toString actual_sampling_rate) }
      else
        .ok { name := "check_sampling_rate"
              passed := true
              details := none }

/-- Row of a decoded coarse time-series table, as consumed by the client
methods of `reveal_data_client/time_series/coarse/client.py`: the four label
columns (raw strings, as read from the CSV) and the `LabChartTime` index
entry in `Int` nanoseconds.  The source compares label columns against the
`str`-backed enums by string equality. -/
structure Row where
  participant : String
  visit : String
  period : String
  status : String
  time : ℤ
deriving DecidableEq, Repr

/-- Method `CoarseTimeSeriesClient.get_data_for_ans_period` from
`coarse/client.py`: the boolean-mask filter keeping rows whose four label
columns equal the requested participant, visit, period and status. -/
def get_data_for_ans_period (data : List Row) (participant_id : String)
    (visit_id : VisitID) (ans_period : AnsPeriod) (vns_status : VnsStatus) : List Row :=
  data.filter (fun r => decide (r.participant = participant_id ∧ r.visit = visit_id.value
    ∧ r.period = ans_period.value ∧ r.status = vns_status.value))

/-- Order-preserving deduplication (pandas `unique` / first occurrence of
each element of a Python `set` built from a scan), accumulator version. -/
def uniqueFirstAux [DecidableEq α] : List α → List α → List α
  | _, [] => []
  | seen, x :: xs =>
    if x ∈ seen then uniqueFirstAux seen xs else x :: uniqueFirstAux (x :: seen) xs

/-- Order-preserving deduplication keeping first occurrences. -/
def uniqueFirst [DecidableEq α] (l : List α) : List α := uniqueFirstAux [] l

/-- Python list comprehension over a fallible element function: the elements
are processed left to right and the first raised exception aborts the whole
comprehension. -/
def mapExcept (f : α → Except ε β) : List α → Except ε (List β)
  | [] => .ok []
  | x :: xs => do
    let y ← f x
    let ys ← mapExcept f xs
    pure (y :: ys)

/-- Method `CoarseTimeSeriesClient.get_visit_ids` from `coarse/client.py`:
coerces each distinct `Visit_ID` column value with `VisitID(id)`.  The
coercion of an unknown token raises `ValueError` and there is no
`try`/`except` around it, so the first bad token aborts the call. -/
def get_visit_ids (data : List Row) : Except String (List VisitID) :=
  mapExcept
    (fun s => match VisitID.ofString s with
      | some v => .ok v
      | none => .error ("ValueError: " ++ s ++ " is not a valid VisitID"))
    (uniqueFirst (data.map Row.visit))

/-- Method `CoarseTimeSeriesClient.get_ans_periods_and_vns_status` from
`coarse/client.py`: filters the table to the visit, collects the distinct
(period, status) string pairs, and coerces each pair with
`(AnsPeriod(p), VnsStatus(s))`.  The coercion of an unknown token raises
`ValueError` with no surrounding `try`/`except`. -/
def get_ans_periods_and_vns_status (data : List Row) (visit_id : VisitID) :
    Except String (List (AnsPeriod × VnsStatus)) :=
  let rows := data.filter (fun r => decide (r.visit = visit_id.value))
  mapExcept
    (fun ps : String × String => do
      let p ← match AnsPeriod.ofString ps.1 with
        | some p => Except.ok p
        | none => Except.error ("ValueError: " ++ ps.1 ++ " is not a valid AnsPeriod")
      let s ← match VnsStatus.ofString ps.2 with
        | some s => Except.ok s
        | none => Except.error ("ValueError: " ++ ps.2 ++ " is not a valid VnsStatus")
      pure (p, s))
    (uniqueFirst (rows.map (fun r => (r.period, r.status))))

/-- Already-loaded view of a `RevealDataClient` as consumed by
`validate_coarse_time_series` in `checks.py`: participant ids, per
participant the visit ids, per visit the (period, status) pairs, and per
(participant, visit, period, status) the segment frame handed to the three
per-segment checks. -/
structure ClientModel where
  participants : List String
  visits : String → List VisitID
  pairs : String → VisitID → List (AnsPeriod × VnsStatus)
  segment : String → VisitID → AnsPeriod → VnsStatus → Frame

/-- Per-segment check block of `validate_coarse_time_series`: missing
channels, unexpected channels, sampling rate, in report order.  A
`ZeroDivisionError`/`IndexError` raised by `check_sampling_rate`
propagates. -/
def segment_checks (f : Frame) : Except String (List CheckResult) := do
  let r3 ← check_sampling_rate f EXPECTED_SAMPLING_RATE
  pure [check_missing_recording_channels f, check_unexpected_recording_channels f, r3]

/-- Per-visit body of `validate_coarse_time_series`: the two completeness
checks for the visit followed by the per-segment checks of every
(period, status) pair. -/
def visit_checks (cl : ClientModel) (p : String) (v : VisitID) :
    Except String (List CheckResult) := do
  let ps := cl.pairs p v
  let seg ← mapExcept (fun pr : AnsPeriod × VnsStatus => segment_checks (cl.segment p v pr.1 pr.2)) ps
  pure ([check_missing_ans_periods_and_vns_status ps,
         check_unexpected_ans_periods_and_vns_status ps] ++ seg.flatten)

/-- Function `validate_coarse_time_series` from `checks.py`: iterates every
participant and visit, accumulating the flat list of check results.  Any
exception raised by a check aborts the run (modelled as `Except.error`). -/
def validate_coarse_time_series (cl : ClientModel) : Except String (List CheckResult) := do
  let per ← mapExcept
    (fun p => do
      let vr ← mapExcept (fun v => visit_checks cl p v) (cl.visits p)
      pure vr.flatten)
    cl.participants
  pure per.flatten

/-- Evenly spaced `LabChartTime` index of `n` rows spanning `span` elapsed
nanoseconds, as pandas materialises the float values `i * span / (n-1)`
converted to nanosecond timedeltas (nearest integer). -/
def evenIndex (n : Nat) (span : ℤ) : List ℤ :=
  (List.range n).map (fun i => pyRound ((i : ℤ) * span) ((n : ℤ) - 1))

/-- Concrete spec scenario: 1000 rows evenly spaced from 0 to 3.996 s, the
claimed 250 Hz table. -/
def table1000 : Frame := ⟨["Participant_ID", "Visit_ID"], evenIndex 1000 3996000000⟩

/-- Concrete spec scenario: half the sample count over the same 3.996 s
span. -/
def table500 : Frame := ⟨["Participant_ID", "Visit_ID"], evenIndex 500 3996000000⟩

/-- Single-row segment: one sample at `LabChartTime` 0, all required
channels present. -/
def singleRowFrame : Frame := ⟨CsvColumn.required, [0]⟩

/-- Client whose only reachable segment is the single-row segment: one
participant, one visit, one (REST, OFF) pair. -/
def singleRowClient : ClientModel :=
  ⟨["P1"], fun _ => [VisitID.SV1], fun _ _ => [(AnsPeriod.REST, VnsStatus.OFF)],
   fun _ _ _ _ => singleRowFrame⟩

/-- Enum `StimOption` from `reveal_data_client/stim_setting.py`: the six
lettered stimulation options. -/
inductive StimOption
  | A
  | B
  | C
  | D
  | E
  | F
deriving DecidableEq, Repr, Fintype

/-- Backing string of each `StimOption` member. -/
def StimOption.value : StimOption → String
  | .A => "A"
  | .B => "B"
  | .C => "C"
  | .D => "D"
  | .E => "E"
  | .F => "F"

/-- Dataclass `StimSetting` from `stim_setting.py`.  Numeric parameters are
modelled as exact rationals; `duty_cycle_on` defaults to `1.0` in the source
and the loader never passes it, so every constructed setting carries `1`. -/
structure StimSetting where
  pulse_width : ℚ
  current : ℚ
  frequency : ℚ
  duty_cycle_off : ℚ
  duty_cycle_on : ℚ
deriving DecidableEq, Repr

/-- Lookup in a Python `dict` built from an association list in insertion
order (a later binding of the same key overwrites an earlier one, hence the
reversed search). -/
def dictLookup [DecidableEq κ] (m : List (κ × ν)) (k : κ) : Option ν :=
  (m.reverse.find? (fun e => decide (e.1 = k))).map Prod.snd

/-- Function `get_ans_stim_mapping` from `stim_setting.py`, applied to the
two already-decoded reference tables: the dict comprehension
`stim_option_mapping[stim_option]` over the participant-mapping items.  A
stim option absent from the option table raises `KeyError`, which aborts
the whole comprehension (no partial mapping is produced). -/
def get_ans_stim_mapping (stim_option_mapping : List (StimOption × StimSetting))
    (participant_mapping : List ((String × VisitID × AnsPeriod) × StimOption)) :
    Except String (List ((String × VisitID × AnsPeriod) × StimSetting)) :=
  mapExcept
    (fun entry => match dictLookup stim_option_mapping entry.2 with
      | some setting => .ok (entry.1, setting)
      | none => .error ("KeyError: " ++ entry.2.value))
    participant_mapping

/-- Constant `MAX_CACHE_SIZE` from `coarse/client.py`: the `maxsize` handed
to `functools.lru_cache` on `_load_data`. -/
def MAX_CACHE_SIZE : Nat := 20

/-- State of a `functools.lru_cache(maxsize=capacity)`: the cached
(key, value) entries in most-recently-used-first order. -/
structure LruCache (κ ν : Type) where
  capacity : Nat
  entries : List (κ × ν)
deriving Repr

/-- Keys currently cached, most recently used first. -/
def cacheKeys (c : LruCache κ ν) : List κ := c.entries.map Prod.fst

/-- Cached value of a key, if present. -/
def cacheFind [DecidableEq κ] (c : LruCache κ ν) (k : κ) : Option ν :=
  (c.entries.find? (fun e => decide (e.1 = k))).map Prod.snd

/-- One memoised call of `functools.lru_cache`: on a hit the entry moves to
the most-recently-used position and the cached value is returned without
recomputation; on a miss the function body runs, the result is inserted as
most recent, and the least-recently-used entry is evicted when the cache
exceeds its capacity.  The third component records whether the body ran
(i.e. whether the file was decoded). -/
def cachedCall [DecidableEq κ] (load : κ → ν) (c : LruCache κ ν) (k : κ) :
    ν × LruCache κ ν × Bool :=
  match cacheFind c k with
  | some v =>
    (v, ⟨c.capacity, (k, v) :: c.entries.filter (fun e => decide (e.1 ≠ k))⟩, false)
  | none =>
    let v := load k
    (v, ⟨c.capacity, ((k, v) :: c.entries).take c.capacity⟩, true)

/-- Sequence of memoised calls, returning the final cache state. -/
def cachedCalls [DecidableEq κ] (load : κ → ν) (c : LruCache κ ν) (ks : List κ) :
    LruCache κ ν :=
  ks.foldl (fun acc k => (cachedCall load acc k).2.1) c

/-- Splits a character list at every occurrence of the separator (the
separator-splitting underlying `str.split` / the csv tokenizer). -/
def splitChar (c : Char) : List Char → List (List Char)
  | [] => [[]]
  | x :: xs =>
    let rest := splitChar c xs
    if x = c then [] :: rest
    else
      match rest with
      | [] => [[x]]
      | y :: ys => (x :: y) :: ys

/-- Numeric value of a decimal digit character. -/
def digitVal (c : Char) : Option Nat :=
  if '0' ≤ c ∧ c ≤ '9' then some (c.toNat - '0'.toNat) else none

/-- Parses a non-empty string of decimal digits. -/
def parseDigits : List Char → Option Nat
  | [] => none
  | ds =>
    ds.foldl
      (fun acc c => match acc, digitVal c with
        | some n, some d => some (n * 10 + d)
        | _, _ => none)
      (some 0)

/-- Value of a fractional digit block in nanoseconds (at most 9 digits, the
`Timedelta` resolution of `pd.to_timedelta(..., unit="s")`). -/
def fracNs (ds : List Char) : Option ℤ :=
  if ds.length ≤ 9 then
    (parseDigits ds).map (fun n => (n : ℤ) * (10 : ℤ) ^ (9 - ds.length))
  else none

/-- Unsigned decimal (digits, optional fractional part) to nanoseconds. -/
def parseUnsignedNs (cs : List Char) : Option ℤ :=
  match splitChar '.' cs with
  | [ipart] => (parseDigits ipart).map (fun n => (n : ℤ) * 1000000000)
  | [ipart, fpart] =>
    match parseDigits ipart, fracNs fpart with
    | some i, some f => some ((i : ℤ) * 1000000000 + f)
    | _, _ => none
  | _ => none

/-- Parses a decimal cell (optional sign, digits, optional fractional part)
as the nanosecond count of `pd.to_timedelta(float(cell), unit="s")`. -/
def parseCellNs (cs : List Char) : Option ℤ :=
  match cs with
  | '-' :: rest => (parseUnsignedNs rest).map Neg.neg
  | _ => parseUnsignedNs cs

/-- Decoded delimited file before index conversion: the header and the rows
of string cells (`pd.read_csv(file_path, delimiter="|")`). -/
structure RawTable where
  header : List String
  rows : List (List String)
deriving DecidableEq, Repr

/-- Parses pipe-delimited text: newline-separated records, pipe-separated
cells, blank lines skipped; a record of deviating width is a parse error
(pandas `ParserError`), and an empty file is `EmptyDataError`. -/
def parse_pipe_csv (content : String) : Option RawTable :=
  match (splitChar '\n' content.data).filter (fun l => l ≠ []) with
  | [] => none
  | header :: records =>
    let hs := (splitChar '|' header).map (fun cs => String.mk cs)
    let rs := records.map (fun r => (splitChar '|' r).map (fun cs => String.mk cs))
    if rs.all (fun r => r.length = hs.length) then some ⟨hs, rs⟩ else none

/-- Position of a column name in a header. -/
def colPos (h : List String) (name : String) : Option Nat :=
  h.indexOf? name

/-- Sequence of options, `none` if any element is `none`. -/
def allSome : List (Option α) → Option (List α)
  | [] => some []
  | none :: _ => none
  | some x :: xs => (allSome xs).map (x :: ·)

/-- Decoded recording table after `pd.to_timedelta` conversion and
`set_index`: the remaining column names, the nanosecond index, and the
remaining string cells of each row. -/
structure ParsedTable where
  columns : List String
  index : List ℤ
  cells : List (List String)
deriving DecidableEq, Repr

/-- Conversion step intended by `_load_data`: coerce the named time column
to timedeltas and set it as the index (dead code in the source, see
`loadDataAttrTable`). -/
def set_time_index (raw : RawTable) (idx : String) : Except String ParsedTable :=
  match colPos raw.header idx with
  | none => .error ("KeyError: " ++ idx)
  | some i =>
    match allSome (raw.rows.map (fun r => (r.get? i).bind (fun cell => parseCellNs cell.data))) with
    | none => .error "ValueError: could not convert cell to float"
    | some ts =>
      .ok ⟨raw.header.eraseIdx i, ts, raw.rows.map (fun r => r.eraseIdx i)⟩

/-- Path template of `_load_data` in `coarse/client.py`:
`primary/sub-<id>/ANS/<id>_lab_ans_all.csv` under the participants path. -/
def load_file_path (participants_path participant_id : String) : String :=
  participants_path ++ "/sub-" ++ participant_id ++ "/ANS/" ++ participant_id
    ++ "_lab_ans_all.csv"

/-- String-valued classmethods that the `CsvColumn` enum class of
`coarse/constants.py` actually defines: only `index` (returning
"LabChartTime").  `coarse/client.py` line 99 calls `CsvColumn.index_col()`,
a name this attribute table does not contain, so the lookup raises
`AttributeError`. -/
def csvColumnStrClassMethods : List (String × String) :=
  [("index", CsvColumn.index_name)]

/-- Method `CoarseTimeSeriesClient._load_data` from `coarse/client.py` over
an abstract filesystem (path to file content): resolves the fixed path
template, reads and parses the pipe-delimited file, then evaluates
`CsvColumn.index_col()` for the timedelta conversion — an attribute lookup
that fails, because `constants.py` defines the classmethod `index`, not
`index_col`. -/
def load_data (fs : String → Option String) (participants_path participant_id : String) :
    Except String ParsedTable :=
  match fs (load_file_path participants_path participant_id) with
  | none => .error ("FileNotFoundError: " ++ load_file_path participants_path participant_id)
  | some content =>
    match parse_pipe_csv content with
    | none => .error "ParserError: malformed file"
    | some raw =>
      match dictLookup csvColumnStrClassMethods "index_col" with
      | none => .error "AttributeError: type object CsvColumn has no attribute index_col"
      | some idx => set_time_index raw idx

/-- Memoised `_load_data` under its `lru_cache(maxsize=MAX_CACHE_SIZE)`
decorator, keyed by participant identifier: a cached table is returned
without decoding; otherwise the body runs and only a successful result is
cached (`functools.lru_cache` does not cache raised exceptions).  The third
component records whether the body ran. -/
def cached_load_data (fs : String → Option String) (participants_path : String)
    (c : LruCache String ParsedTable) (participant_id : String) :
    Except String ParsedTable × LruCache String ParsedTable × Bool :=
  match cacheFind c participant_id with
  | some t =>
    (.ok t,
     ⟨c.capacity, (participant_id, t) :: c.entries.filter (fun e => decide (e.1 ≠ participant_id))⟩,
     false)
  | none =>
    match load_data fs participants_path participant_id with
    | .ok t => (.ok t, ⟨c.capacity, ((participant_id, t) :: c.entries).take c.capacity⟩, true)
    | .error e => (.error e, c, true)

/-- Frame whose columns are exactly the required channels. -/
def frameAllChannels : Frame := ⟨CsvColumn.required, []⟩

/-- Frame with the `HR` channel dropped (pandas `drop(columns=["HR"])`). -/
def frameDropHR : Frame := ⟨CsvColumn.required.filter (fun c => decide (c ≠ "HR")), []⟩

/-- Frame with one extra column beyond the required channels. -/
def frameExtraChannel : Frame := ⟨CsvColumn.required ++ ["unexpected"], []⟩

/-- Two-row example table for the segment query. -/
def exampleRows : List Row :=
  [⟨"P1", "SV1", "REST", "OFF", 0⟩, ⟨"P1", "SV1", "STIM1", "ON", 4000000⟩]

/-- Rows whose visit column contains a token that is not a valid
`VisitID`. -/
def rowsBadVisit : List Row :=
  [⟨"P1", "SV1", "REST", "OFF", 0⟩, ⟨"P1", "BOGUS", "REST", "OFF", 4000000⟩,
   ⟨"P1", "SV2", "REST", "OFF", 8000000⟩]

/-- Rows of one visit whose period column contains a token that is not a
valid `AnsPeriod`. -/
def rowsBadPeriod : List Row :=
  [⟨"P1", "SV1", "REST", "OFF", 0⟩, ⟨"P1", "SV1", "JUNK", "OFF", 4000000⟩,
   ⟨"P1", "SV1", "STIM1", "ON", 8000000⟩]

/-- Stimulation setting of option A in the spec scenario (pulse width
0.5 ms, current 2.0 mA, frequency 20 Hz, duty-cycle-off 5 min, defaulted
duty-cycle-on 1.0 min). -/
def settingA : StimSetting := ⟨1/2, 2, 20, 5, 1⟩

/-- Option-parameter table containing only option A. -/
def stimOptionsOnlyA : List (StimOption × StimSetting) := [(StimOption.A, settingA)]

/-- Participant-assignment entries naming option A for one slot and the
absent option F for another. -/
def participantMapWithF : List ((String × VisitID × AnsPeriod) × StimOption) :=
  [(("P1", VisitID.SV1, AnsPeriod.STIM1), StimOption.A),
   (("P1", VisitID.SV1, AnsPeriod.STIM2), StimOption.F)]

/-- Single participant-assignment entry naming option A (the spec's one-row
resolver scenario). -/
def participantMapSingle : List ((String × VisitID × AnsPeriod) × StimOption) :=
  [(("P1", VisitID.SV1, AnsPeriod.STIM1), StimOption.A)]

/-- Pipe-delimited file content of a small recording. -/
def exampleContent : String :=
  "Participant_ID|Visit_ID|LabChartTime\nP1|SV1|0.0\nP1|SV1|0.004"

/-- Parsed form of `exampleContent`. -/
def exampleRaw : RawTable :=
  ⟨["Participant_ID", "Visit_ID", "LabChartTime"],
   [["P1", "SV1", "0.0"], ["P1", "SV1", "0.004"]]⟩

/-- Filesystem holding exactly one recording file, for participant P1
under participants path "primary". -/
def exampleFs : String → Option String :=
  fun p => if p = load_file_path "primary" "P1" then some exampleContent else none

/-- Failure characterisation of the missing-combinations check. -/
theorem check_missing_aps_passed_false_iff (obs : List (AnsPeriod × VnsStatus)) :
    (check_missing_ans_periods_and_vns_status obs).passed = false ↔
      ∃ e ∈ EXPECTED_ANS_PERIODS_AND_VNS_STATUS, e ∉ obs := by
  unfold check_missing_ans_periods_and_vns_status
  dsimp only
  split_ifs with h
  · refine iff_of_true rfl ?_
    rw [ne_eq, List.filter_eq_nil_iff] at h
    push_neg at h
    simpa using h
  · refine iff_of_false (by simp) ?_
    rw [not_not, List.filter_eq_nil_iff] at h
    rintro ⟨e, he, hno⟩
    exact hno (by simpa using h e he)

/-- Failure characterisation of the unexpected-combinations check. -/
theorem check_unexpected_aps_passed_false_iff (obs : List (AnsPeriod × VnsStatus)) :
    (check_unexpected_ans_periods_and_vns_status obs).passed = false ↔
      ∃ a ∈ obs, a ∉ EXPECTED_ANS_PERIODS_AND_VNS_STATUS := by
  unfold check_unexpected_ans_periods_and_vns_status
  dsimp only
  split_ifs with h
  · refine iff_of_true rfl ?_
    rw [ne_eq, List.filter_eq_nil_iff] at h
    push_neg at h
    simpa using h
  · refine iff_of_false (by simp) ?_
    rw [not_not, List.filter_eq_nil_iff] at h
    rintro ⟨e, he, hno⟩
    exact hno (by simpa using h e he)

/-- Failure characterisation of the missing-channels check. -/
theorem check_missing_channels_passed_false_iff (f : Frame) :
    (check_missing_recording_channels f).passed = false ↔
      ∃ c ∈ CsvColumn.required, c ∉ f.columns := by
  unfold check_missing_recording_channels
  dsimp only
  split_ifs with h
  · refine iff_of_true rfl ?_
    rw [ne_eq, List.filter_eq_nil_iff] at h
    push_neg at h
    simpa using h
  · refine iff_of_false (by simp) ?_
    rw [not_not, List.filter_eq_nil_iff] at h
    rintro ⟨e, he, hno⟩
    exact hno (by simpa using h e he)

/-- Failure characterisation of the unexpected-channels check. -/
theorem check_unexpected_channels_passed_false_iff (f : Frame) :
    (check_unexpected_recording_channels f).passed = false ↔
      ∃ c ∈ f.columns, c ∉ CsvColumn.required := by
  unfold check_unexpected_recording_channels
  dsimp only
  split_ifs with h
  · refine iff_of_true rfl ?_
    rw [ne_eq, List.filter_eq_nil_iff] at h
    push_neg at h
    simpa using h
  · refine iff_of_false (by simp) ?_
    rw [not_not, List.filter_eq_nil_iff] at h
    rintro ⟨e, he, hno⟩
    exact hno (by simpa using h e he)

/-- Claim C1: the validation entry point is claimed never to throw for
data-quality issues and to surface a single-row or zero-elapsed-time
segment as a returned outcome.  The code instead raises: on a single-row
segment (all required channels, one sample) `check_sampling_rate` divides
by a zero elapsed time, raising `ZeroDivisionError`, and the exception
propagates out of `validate_coarse_time_series`, so the run produces no
report at all. -/
theorem c1_single_row_segment_crashes_validation :
    check_sampling_rate singleRowFrame EXPECTED_SAMPLING_RATE =
      .error "ZeroDivisionError: float division by zero"
  ∧ validate_coarse_time_series singleRowClient =
      .error "ZeroDivisionError: float division by zero" :=
  ⟨rfl, rfl⟩

/-- Claim C2: for a frame with at least two rows and positive elapsed time,
`check_sampling_rate` returns a result that passes iff the banker-rounded
`rowCount / elapsed-seconds` equals the expected rate exactly (elapsed in
nanoseconds, so the ratio is `rowCount * 10^9 / elapsed`), with the failure
detail reporting the actual rate; concretely the 1000-row table evenly
spaced over 3.996 s passes at the default 250 Hz, and the 500-row table
over the same span fails with detail reporting 125 Hz. -/
theorem c2_sampling_rate_exact_equality :
    (∀ (f : Frame) (rate t0 tN : ℤ),
        f.index.head? = some t0 → f.index.getLast? = some tN →
        2 ≤ f.index.length → 0 < tN - t0 →
        check_sampling_rate f rate =
          (if pyRound (1000000000 * (f.index.length : ℤ)) (tN - t0) = rate
           then Except.ok ⟨"check_sampling_rate", true, none⟩
           else Except.ok ⟨"check_sampling_rate", false,
                  some ("Unexpected sampling rate. Expected: " ++ toString rate
                    ++ ", Actual: "
                    ++ toString (pyRound (1000000000 * (f.index.length : ℤ)) (tN - t0)))⟩))
  ∧ EXPECTED_SAMPLING_RATE = 250
  ∧ check_sampling_rate table1000 EXPECTED_SAMPLING_RATE =
      .ok { name := "check_sampling_rate", passed := true, details := none }
  ∧ check_sampling_rate table500 EXPECTED_SAMPLING_RATE =
      .ok { name := "check_sampling_rate", passed := false,
            details := some "Unexpected sampling rate. Expected: 250, Actual: 125" } := by
  refine ⟨?_, rfl, rfl, rfl⟩
  intro f rate t0 tN h0 hN hlen hpos
  have hne : f.index ≠ [] := by
    intro h
    rw [h] at h0
    simp at h0
  have h0' : f.index.head hne = t0 := by
    rw [List.head?_eq_head hne] at h0
    exact Option.some.inj h0
  have hN' : f.index.getLast hne = tN := by
    rw [List.getLast?_eq_getLast _ hne] at hN
    exact Option.some.inj hN
  unfold check_sampling_rate
  rw [dif_neg hne]
  simp only [h0', hN']
  rw [if_neg (by omega)]
  by_cases h : pyRound (1000000000 * (f.index.length : ℤ)) (tN - t0) = rate
  · rw [if_neg (not_not_intro h), if_pos h]
  · rw [if_pos h, if_neg h]

/-- Witness for C2 at the concrete 1000-row table. -/
theorem c2_sampling_rate_exact_equality_witness :
    check_sampling_rate table1000 EXPECTED_SAMPLING_RATE =
      (if pyRound (1000000000 * (table1000.index.length : ℤ)) (3996000000 - 0)
            = EXPECTED_SAMPLING_RATE
       then Except.ok ⟨"check_sampling_rate", true, none⟩
       else Except.ok ⟨"check_sampling_rate", false,
              some ("Unexpected sampling rate. Expected: "
                ++ toString EXPECTED_SAMPLING_RATE ++ ", Actual: "
                ++ toString (pyRound (1000000000 * (table1000.index.length : ℤ))
                      (3996000000 - 0)))⟩) :=
  c2_sampling_rate_exact_equality.1 table1000 EXPECTED_SAMPLING_RATE 0 3996000000
    rfl (by decide) (by decide) (by decide)

/-- Claim C10: every `CheckResult` produced by the five check functions
carries a diagnostic detail string iff the check failed — `details` is
`none` exactly when `passed` is `true`, and on failure `details` is some
string. -/
theorem c10_details_iff_failed :
    (∀ obs, ((check_missing_ans_periods_and_vns_status obs).details = none ↔
        (check_missing_ans_periods_and_vns_status obs).passed = true))
  ∧ (∀ obs, ((check_unexpected_ans_periods_and_vns_status obs).details = none ↔
        (check_unexpected_ans_periods_and_vns_status obs).passed = true))
  ∧ (∀ f, ((check_missing_recording_channels f).details = none ↔
        (check_missing_recording_channels f).passed = true))
  ∧ (∀ f, ((check_unexpected_recording_channels f).details = none ↔
        (check_unexpected_recording_channels f).passed = true))
  ∧ (∀ (f : Frame) (rate : ℤ) (r : CheckResult), check_sampling_rate f rate = .ok r →
        (r.details = none ↔ r.passed = true)) := by
  refine ⟨?_, ?_, ?_, ?_, ?_⟩
  · intro obs
    unfold check_missing_ans_periods_and_vns_status
    dsimp only
    split_ifs <;> simp
  · intro obs
    unfold check_unexpected_ans_periods_and_vns_status
    dsimp only
    split_ifs <;> simp
  · intro f
    unfold check_missing_recording_channels
    dsimp only
    split_ifs <;> simp
  · intro f
    unfold check_unexpected_recording_channels
    dsimp only
    split_ifs <;> simp
  · intro f rate r h
    unfold check_sampling_rate at h
    dsimp only at h
    split_ifs at h <;>
      [skip; skip] <;>
      · rw [Except.ok.injEq] at h
        rw [← h]
        simp

/-- Witness for C10 at the concrete 1000-row table (sampling-rate branch,
which carries the hypothesis). -/
theorem c10_details_iff_failed_witness :
    ((CheckResult.mk "check_sampling_rate" true none).details = none ↔
      (CheckResult.mk "check_sampling_rate" true none).passed = true) :=
  c10_details_iff_failed.2.2.2.2 table1000 EXPECTED_SAMPLING_RATE
    (CheckResult.mk "check_sampling_rate" true none) rfl

/-- Claim C3: the expected (condition, status) set has exactly the 16
protocol entries (STIM1/STIM2/STIM3 with ON only, REST with OFF only,
IHG/PECO/HUT/BASELINE_IHG/RECOVERY_PECO with both statuses, BASELINE_HUT
with OFF only, RECOVERY_HUT with ON only); the missing-combinations check
fails iff some expected pair is absent from the observed sequence, the
unexpected-combinations check fails iff some observed pair is outside the
expected set, and the checks are independent: the full expected set passes
both, removing any one entry fails only the missing check, and adding any
extra entry fails only the unexpected check. -/
theorem c3_expected_set_and_independent_checks :
    EXPECTED_ANS_PERIODS_AND_VNS_STATUS.length = 16
  ∧ (∀ p s, (p, s) ∈ EXPECTED_ANS_PERIODS_AND_VNS_STATUS ↔
      ((p = .STIM1 ∨ p = .STIM2 ∨ p = .STIM3) ∧ s = .ON)
      ∨ (p = .REST ∧ s = .OFF)
      ∨ (p = .IHG ∨ p = .PECO ∨ p = .HUT ∨ p = .BASELINE_IHG ∨ p = .RECOVERY_PECO)
      ∨ (p = .BASELINE_HUT ∧ s = .OFF)
      ∨ (p = .RECOVERY_HUT ∧ s = .ON))
  ∧ (∀ obs, (check_missing_ans_periods_and_vns_status obs).passed = false ↔
      ∃ e ∈ EXPECTED_ANS_PERIODS_AND_VNS_STATUS, e ∉ obs)
  ∧ (∀ obs, (check_unexpected_ans_periods_and_vns_status obs).passed = false ↔
      ∃ a ∈ obs, a ∉ EXPECTED_ANS_PERIODS_AND_VNS_STATUS)
  ∧ (check_missing_ans_periods_and_vns_status EXPECTED_ANS_PERIODS_AND_VNS_STATUS).passed = true
  ∧ (check_unexpected_ans_periods_and_vns_status EXPECTED_ANS_PERIODS_AND_VNS_STATUS).passed = true
  ∧ (∀ e ∈ EXPECTED_ANS_PERIODS_AND_VNS_STATUS,
      (check_missing_ans_periods_and_vns_status
        (EXPECTED_ANS_PERIODS_AND_VNS_STATUS.erase e)).passed = false
      ∧ (check_unexpected_ans_periods_and_vns_status
        (EXPECTED_ANS_PERIODS_AND_VNS_STATUS.erase e)).passed = true)
  ∧ (∀ x : AnsPeriod × VnsStatus, x ∉ EXPECTED_ANS_PERIODS_AND_VNS_STATUS →
      (check_missing_ans_periods_and_vns_status
        (EXPECTED_ANS_PERIODS_AND_VNS_STATUS ++ [x])).passed = true
      ∧ (check_unexpected_ans_periods_and_vns_status
        (EXPECTED_ANS_PERIODS_AND_VNS_STATUS ++ [x])).passed = false) :=
  ⟨by decide, by decide, check_missing_aps_passed_false_iff,
   check_unexpected_aps_passed_false_iff, by decide, by decide, by decide, by decide⟩

/-- Witness for C3: removing (STIM1, ON) fails only the missing check, and
adding the extra pair (STIM1, OFF) fails only the unexpected check. -/
theorem c3_expected_set_and_independent_checks_witness :
    ((check_missing_ans_periods_and_vns_status
        (EXPECTED_ANS_PERIODS_AND_VNS_STATUS.erase
          (AnsPeriod.STIM1, VnsStatus.ON))).passed = false
      ∧ (check_unexpected_ans_periods_and_vns_status
        (EXPECTED_ANS_PERIODS_AND_VNS_STATUS.erase
          (AnsPeriod.STIM1, VnsStatus.ON))).passed = true)
  ∧ ((check_missing_ans_periods_and_vns_status
        (EXPECTED_ANS_PERIODS_AND_VNS_STATUS
          ++ [(AnsPeriod.STIM1, VnsStatus.OFF)])).passed = true
      ∧ (check_unexpected_ans_periods_and_vns_status
        (EXPECTED_ANS_PERIODS_AND_VNS_STATUS
          ++ [(AnsPeriod.STIM1, VnsStatus.OFF)])).passed = false) :=
  ⟨c3_expected_set_and_independent_checks.2.2.2.2.2.2.1
      (AnsPeriod.STIM1, VnsStatus.ON) (by decide),
   c3_expected_set_and_independent_checks.2.2.2.2.2.2.2
      (AnsPeriod.STIM1, VnsStatus.OFF) (by decide)⟩

/-- Claim C4: for every loaded table and every (participant, visit,
condition, status) four-tuple with no matching rows, the segment query
returns the empty table; the filter is a total function, so no error can be
raised. -/
theorem c4_get_segment_empty_when_no_match (data : List Row) (participant_id : String)
    (visit_id : VisitID) (ans_period : AnsPeriod) (vns_status : VnsStatus)
    (h : ∀ r ∈ data, ¬(r.participant = participant_id ∧ r.visit = visit_id.value
        ∧ r.period = ans_period.value ∧ r.status = vns_status.value)) :
    get_data_for_ans_period data participant_id visit_id ans_period vns_status = [] := by
  unfold get_data_for_ans_period
  rw [List.filter_eq_nil_iff]
  intro r hr
  simpa using h r hr

/-- Witness for C4: a participant absent from the example table yields the
empty segment. -/
theorem c4_get_segment_empty_when_no_match_witness :
    get_data_for_ans_period exampleRows "P2" VisitID.SV1 AnsPeriod.REST VnsStatus.OFF = [] :=
  c4_get_segment_empty_when_no_match exampleRows "P2" VisitID.SV1 AnsPeriod.REST
    VnsStatus.OFF (by decide)

/-- Counterexample for C5: the fixed expected channel set compared by the
channel-presence checks has 20 entries, not the 21 stated by the spec (the
21-member column enum minus the time index). -/
theorem c5_counterexample_required_has_20_channels :
    CsvColumn.required.length = 20 ∧ ¬ CsvColumn.required.length = 21 := by decide

/-- Claim C5 (amended): the channel-presence checks compare the frame's
column set against the fixed 20-channel required set (the 21 CSV columns
minus the time index); a table with exactly the required columns passes
both checks, dropping HR fails only the missing-channel check, and adding
an extra column fails only the unexpected-channel check. -/
theorem c5_channel_checks :
    CsvColumn.required.length = 20
  ∧ (∀ f, (check_missing_recording_channels f).passed = false ↔
      ∃ c ∈ CsvColumn.required, c ∉ f.columns)
  ∧ (∀ f, (check_unexpected_recording_channels f).passed = false ↔
      ∃ c ∈ f.columns, c ∉ CsvColumn.required)
  ∧ (check_missing_recording_channels frameAllChannels).passed = true
  ∧ (check_unexpected_recording_channels frameAllChannels).passed = true
  ∧ (check_missing_recording_channels frameDropHR).passed = false
  ∧ (check_unexpected_recording_channels frameDropHR).passed = true
  ∧ (check_missing_recording_channels frameExtraChannel).passed = true
  ∧ (check_unexpected_recording_channels frameExtraChannel).passed = false :=
  ⟨by decide, check_missing_channels_passed_false_iff,
   check_unexpected_channels_passed_false_iff, by decide, by decide, by decide,
   by decide, by decide, by decide⟩

/-- Membership in the deduplication accumulator. -/
theorem uniqueFirstAux_mem [DecidableEq α] (l : List α) :
    ∀ (seen : List α) (x : α), x ∈ uniqueFirstAux seen l ↔ x ∈ l ∧ x ∉ seen := by
  induction l with
  | nil => intro seen x; simp [uniqueFirstAux]
  | cons a as ih =>
    intro seen x
    unfold uniqueFirstAux
    by_cases hmem : a ∈ seen
    · rw [if_pos hmem, ih]
      constructor
      · rintro ⟨hx, hs⟩
        exact ⟨List.mem_cons_of_mem _ hx, hs⟩
      · rintro ⟨hx, hs⟩
        rcases List.mem_cons.mp hx with rfl | hx
        · exact absurd hmem hs
        · exact ⟨hx, hs⟩
    · rw [if_neg hmem]
      by_cases hxa : x = a
      · subst hxa
        simp [hmem]
      · simp only [List.mem_cons, hxa, false_or, ih, List.mem_cons, not_or]

/-- Deduplication preserves membership. -/
theorem uniqueFirst_mem [DecidableEq α] (l : List α) (x : α) :
    x ∈ uniqueFirst l ↔ x ∈ l := by
  unfold uniqueFirst
  rw [uniqueFirstAux_mem]
  simp

/-- A fallible comprehension succeeds iff every element succeeds. -/
theorem mapExcept_ok_iff (f : α → Except ε β) (l : List α) :
    (∃ ys, mapExcept f l = .ok ys) ↔ ∀ x ∈ l, ∃ y, f x = .ok y := by
  induction l with
  | nil => simp [mapExcept]
  | cons a as ih =>
    constructor
    · rintro ⟨ys, hys⟩
      intro x hx
      unfold mapExcept at hys
      cases hfa : f a with
      | error e =>
        rw [hfa] at hys
        exact Except.noConfusion (show Except.error e = Except.ok ys from hys)
      | ok y =>
        rw [hfa] at hys
        cases hmas : mapExcept f as with
        | error e =>
          rw [hmas] at hys
          exact Except.noConfusion (show Except.error e = Except.ok ys from hys)
        | ok zs =>
          rcases List.mem_cons.mp hx with rfl | hx
          · exact ⟨y, hfa⟩
          · exact (ih.mp ⟨zs, hmas⟩) x hx
    · intro hall
      obtain ⟨y, hy⟩ := hall a (List.mem_cons_self a as)
      obtain ⟨ys, hys⟩ := ih.mpr (fun x hx => hall x (List.mem_cons_of_mem a hx))
      refine ⟨y :: ys, ?_⟩
      unfold mapExcept
      rw [hy, hys]
      rfl

/-- An `Except` value is an error or a success. -/
theorem except_error_or_ok (r : Except ε β) : (∃ e, r = .error e) ∨ ∃ y, r = .ok y := by
  cases r
  · exact Or.inl ⟨_, rfl⟩
  · exact Or.inr ⟨_, rfl⟩

/-- Counterexample for C8: one invalid token in the visit (resp. period)
column makes the whole enumeration call raise `ValueError`; nothing is
skipped and the remaining valid values are not returned. -/
theorem c8_counterexample_invalid_token_is_fatal :
    get_visit_ids rowsBadVisit = .error "ValueError: BOGUS is not a valid VisitID"
  ∧ get_ans_periods_and_vns_status rowsBadPeriod VisitID.SV1 =
      .error "ValueError: JUNK is not a valid AnsPeriod" :=
  ⟨rfl, rfl⟩

/-- Claim C8 (amended): in the enumeration methods an invalid or unknown
enum token in the visit/condition/status column values is fatal — the call
raises `ValueError` and returns no values at all; only when every token is
valid does the call return the enumerated values. -/
theorem c8_enumeration_raises_on_invalid_token :
    (∀ data : List Row, (∃ s ∈ data.map Row.visit, VisitID.ofString s = none) →
        ∃ e, get_visit_ids data = .error e)
  ∧ (∀ data : List Row, (∀ s ∈ data.map Row.visit, ∃ v, VisitID.ofString s = some v) →
        ∃ l, get_visit_ids data = .ok l)
  ∧ (∀ (data : List Row) (v : VisitID),
        (∃ pr ∈ (data.filter (fun r => decide (r.visit = v.value))).map
            (fun r => (r.period, r.status)),
          AnsPeriod.ofString pr.1 = none ∨ VnsStatus.ofString pr.2 = none) →
        ∃ e, get_ans_periods_and_vns_status data v = .error e) := by
  refine ⟨?_, ?_, ?_⟩
  · rintro data ⟨s, hs, hnone⟩
    rcases except_error_or_ok (get_visit_ids data) with ⟨e, he⟩ | ⟨l, hl⟩
    · exact ⟨e, he⟩
    · exfalso
      unfold get_visit_ids at hl
      obtain ⟨v, hv⟩ := (mapExcept_ok_iff _ _).mp ⟨l, hl⟩ s ((uniqueFirst_mem _ _).mpr hs)
      rw [hnone] at hv
      exact Except.noConfusion
        (show Except.error ("ValueError: " ++ s ++ " is not a valid VisitID")
          = Except.ok v from hv)
  · intro data hall
    unfold get_visit_ids
    apply (mapExcept_ok_iff _ _).mpr
    intro x hx
    obtain ⟨v, hv⟩ := hall x ((uniqueFirst_mem _ _).mp hx)
    exact ⟨v, by rw [hv]⟩
  · rintro data v ⟨pr, hpr, hbad⟩
    rcases except_error_or_ok (get_ans_periods_and_vns_status data v) with ⟨e, he⟩ | ⟨l, hl⟩
    · exact ⟨e, he⟩
    · exfalso
      unfold get_ans_periods_and_vns_status at hl
      obtain ⟨y, hy⟩ := (mapExcept_ok_iff _ _).mp ⟨l, hl⟩ pr
        ((uniqueFirst_mem _ _).mpr hpr)
      rcases hbad with hp | hs2
      · rw [hp] at hy
        exact Except.noConfusion
          (show Except.error ("ValueError: " ++ pr.1 ++ " is not a valid AnsPeriod")
            = Except.ok y from hy)
      · cases hp2 : AnsPeriod.ofString pr.1 with
        | none =>
          rw [hp2] at hy
          exact Except.noConfusion
            (show Except.error ("ValueError: " ++ pr.1 ++ " is not a valid AnsPeriod")
              = Except.ok y from hy)
        | some p =>
          rw [hp2, hs2] at hy
          exact Except.noConfusion
            (show Except.error ("ValueError: " ++ pr.2 ++ " is not a valid VnsStatus")
              = Except.ok y from hy)

/-- Witness for C8 at the concrete bad-token tables. -/
theorem c8_enumeration_raises_on_invalid_token_witness :
    (∃ e, get_visit_ids rowsBadVisit = Except.error e)
  ∧ (∃ e, get_ans_periods_and_vns_status rowsBadPeriod VisitID.SV1 = Except.error e) :=
  ⟨c8_enumeration_raises_on_invalid_token.1 rowsBadVisit ⟨"BOGUS", by decide, rfl⟩,
   c8_enumeration_raises_on_invalid_token.2.2 rowsBadPeriod VisitID.SV1
     ⟨("JUNK", "OFF"), by decide, Or.inl rfl⟩⟩

/-- Counterexample for C9: with an option table holding only option A and an
assignment naming option F for one slot, the whole resolution raises
`KeyError` — it does not fail for that entry only, and the resolvable
entry is not returned. -/
theorem c9_counterexample_missing_option_aborts_all :
    get_ans_stim_mapping stimOptionsOnlyA participantMapWithF = .error "KeyError: F" :=
  rfl

/-- Claim C9 (amended): when any participant-assignment entry names a
stimulation option absent from the option-parameter table,
`get_ans_stim_mapping` raises `KeyError` and the whole resolution fails (no
mapping for the other entries is returned); when every referenced option is
present the full join is returned, as in the one-row resolver scenario. -/
theorem c9_unresolvable_option_aborts_resolution :
    (∀ (optMap : List (StimOption × StimSetting))
        (partMap : List ((String × VisitID × AnsPeriod) × StimOption)),
        (∃ entry ∈ partMap, dictLookup optMap entry.2 = (none : Option StimSetting)) →
        ∃ e, get_ans_stim_mapping optMap partMap = .error e)
  ∧ (∀ (optMap : List (StimOption × StimSetting))
        (partMap : List ((String × VisitID × AnsPeriod) × StimOption)),
        (∀ entry ∈ partMap, ∃ s, dictLookup optMap entry.2 = some s) →
        ∃ l, get_ans_stim_mapping optMap partMap = .ok l)
  ∧ get_ans_stim_mapping stimOptionsOnlyA participantMapSingle =
      .ok [(("P1", VisitID.SV1, AnsPeriod.STIM1), settingA)] := by
  refine ⟨?_, ?_, rfl⟩
  · rintro optMap partMap ⟨entry, hmem, hnone⟩
    rcases except_error_or_ok (get_ans_stim_mapping optMap partMap) with ⟨e, he⟩ | ⟨l, hl⟩
    · exact ⟨e, he⟩
    · exfalso
      unfold get_ans_stim_mapping at hl
      obtain ⟨y, hy⟩ := (mapExcept_ok_iff _ _).mp ⟨l, hl⟩ entry hmem
      rw [hnone] at hy
      exact Except.noConfusion
        (show Except.error ("KeyError: " ++ entry.2.value) = Except.ok y from hy)
  · intro optMap partMap hall
    unfold get_ans_stim_mapping
    apply (mapExcept_ok_iff _ _).mpr
    intro entry hmem
    obtain ⟨s, hs⟩ := hall entry hmem
    exact ⟨(entry.1, s), by rw [hs]⟩

/-- Witness for C9 at the concrete tables with a dangling option F. -/
theorem c9_unresolvable_option_aborts_resolution_witness :
    ∃ e, get_ans_stim_mapping stimOptionsOnlyA participantMapWithF = Except.error e :=
  c9_unresolvable_option_aborts_resolution.1 stimOptionsOnlyA participantMapWithF
    ⟨(("P1", VisitID.SV1, AnsPeriod.STIM2), StimOption.F), by decide, rfl⟩

/-- A key is absent from the cache iff `cacheFind` misses. -/
theorem cacheFind_eq_none_iff [DecidableEq κ] (c : LruCache κ ν) (k : κ) :
    cacheFind c k = none ↔ k ∉ cacheKeys c := by
  unfold cacheFind cacheKeys
  rw [Option.map_eq_none', List.find?_eq_none]
  constructor
  · intro h hk
    obtain ⟨e, he, hfst⟩ := List.mem_map.mp hk
    have := h e he
    simp only [decide_eq_true_eq] at this
    exact this hfst
  · intro h e he
    simp only [decide_eq_true_eq]
    intro hfst
    exact h (List.mem_map.mpr ⟨e, he, hfst⟩)

/-- Taking `n` of an append whose right part is already truncated at `n`. -/
theorem take_append_take (A B : List α) (n : Nat) :
    (A ++ B.take n).take n = (A ++ B).take n := by
  rw [List.take_append_eq_append_take, List.take_append_eq_append_take, List.take_take]
  congr 1
  congr 1
  exact Nat.min_eq_left (Nat.sub_le n A.length)

/-- A miss inserts the new key in front and truncates to capacity. -/
theorem cachedCall_miss [DecidableEq κ] (load : κ → ν) (c : LruCache κ ν) (k : κ)
    (h : k ∉ cacheKeys c) :
    (cachedCall load c k).2.1.capacity = c.capacity ∧
    cacheKeys (cachedCall load c k).2.1 = (k :: cacheKeys c).take c.capacity := by
  unfold cachedCall
  rw [(cacheFind_eq_none_iff c k).mpr h]
  dsimp only
  refine ⟨rfl, ?_⟩
  unfold cacheKeys
  dsimp only
  rw [List.map_take]
  rfl

/-- Keys after a run of fresh insertions: the reversed insertion order in
front of the old keys, truncated to the capacity. -/
theorem cachedCalls_fresh [DecidableEq κ] (load : κ → ν) :
    ∀ (ks : List κ) (c : LruCache κ ν), ks.Nodup → (∀ k ∈ ks, k ∉ cacheKeys c) →
      (cacheKeys c).length ≤ c.capacity →
      cacheKeys (cachedCalls load c ks) = (ks.reverse ++ cacheKeys c).take c.capacity
      ∧ (cachedCalls load c ks).capacity = c.capacity
  | [], c, _, _, hlen => by
    unfold cachedCalls
    simpa using (List.take_of_length_le hlen).symm
  | k :: rest, c, hnd, hfresh, hlen => by
    have hk : k ∉ cacheKeys c := hfresh k (List.mem_cons_self _ _)
    obtain ⟨hcap, hkeys⟩ := cachedCall_miss load c k hk
    have step : cachedCalls load c (k :: rest)
        = cachedCalls load ((cachedCall load c k).2.1) rest := rfl
    have hnd' : rest.Nodup := (List.nodup_cons.mp hnd).2
    have hkc1 : ∀ x ∈ rest, x ∉ cacheKeys (cachedCall load c k).2.1 := by
      intro x hx hmem
      rw [hkeys] at hmem
      rcases List.mem_cons.mp (List.take_subset _ _ hmem) with rfl | hxc
      · exact (List.nodup_cons.mp hnd).1 hx
      · exact hfresh x (List.mem_cons_of_mem _ hx) hxc
    have hlen1 : (cacheKeys (cachedCall load c k).2.1).length
        ≤ (cachedCall load c k).2.1.capacity := by
      rw [hkeys, hcap, List.length_take]
      exact Nat.min_le_left _ _
    obtain ⟨hkeys2, hcap2⟩ := cachedCalls_fresh load rest (cachedCall load c k).2.1 hnd' hkc1 hlen1
    refine ⟨?_, by rw [step, hcap2, hcap]⟩
    rw [step, hkeys2, hcap, hkeys, take_append_take]
    congr 1
    rw [List.reverse_cons, List.append_assoc]
    rfl

/-- Map of first components commutes with filtering on the key. -/
theorem map_fst_filter_ne [DecidableEq κ] (entries : List (κ × ν)) (k : κ) :
    (entries.filter (fun e => decide (e.1 ≠ k))).map Prod.fst
      = (entries.map Prod.fst).filter (fun x => decide (x ≠ k)) := by
  induction entries with
  | nil => rfl
  | cons e es ih =>
    by_cases h : e.1 = k <;>
      · simp [List.filter_cons, h]
        simpa using ih

/-- Claim C7: the decoded-table cache is bounded at the default capacity
`MAX_CACHE_SIZE = 20` with least-recently-used eviction — inserting N+1
distinct keys into an empty cache of capacity N leaves exactly the last N
keys and evicts exactly the first (least recently used) one, and a hit on
an existing key returns the cached value without recomputation and moves
the key to the most-recently-used position. -/
theorem c7_lru_cache_policy :
    MAX_CACHE_SIZE = 20
  ∧ (∀ (ν : Type) (load : String → ν) (N : Nat) (k0 : String) (rest : List String),
      (k0 :: rest).Nodup → rest.length = N →
      cacheKeys (cachedCalls load (LruCache.mk N []) (k0 :: rest)) = rest.reverse
      ∧ k0 ∉ cacheKeys (cachedCalls load (LruCache.mk N []) (k0 :: rest))
      ∧ ∀ k ∈ rest, k ∈ cacheKeys (cachedCalls load (LruCache.mk N []) (k0 :: rest)))
  ∧ (∀ (ν : Type) (load : String → ν) (c : LruCache String ν) (k : String) (v : ν),
      cacheFind c k = some v →
      (cachedCall load c k).1 = v
      ∧ (cachedCall load c k).2.2 = false
      ∧ cacheKeys (cachedCall load c k).2.1
          = k :: (cacheKeys c).filter (fun x => decide (x ≠ k))) := by
  refine ⟨rfl, ?_, ?_⟩
  · intro ν load N k0 rest hnd hlenr
    have h := (cachedCalls_fresh load (k0 :: rest) (LruCache.mk N [])
      hnd (by intro k _ hk; simp [cacheKeys] at hk) (by simp [cacheKeys])).1
    have hkeys : cacheKeys (cachedCalls load (LruCache.mk N []) (k0 :: rest))
        = rest.reverse := by
      rw [h]
      show ((k0 :: rest).reverse ++ ([] : List String)).take N = rest.reverse
      rw [List.append_nil, List.reverse_cons]
      exact List.take_left' (by simp [hlenr])
    refine ⟨hkeys, ?_, ?_⟩
    · rw [hkeys, List.mem_reverse]
      exact (List.nodup_cons.mp hnd).1
    · intro k hk
      rw [hkeys, List.mem_reverse]
      exact hk
  · intro ν load c k v hfind
    unfold cachedCall
    rw [hfind]
    dsimp only
    refine ⟨rfl, rfl, ?_⟩
    unfold cacheKeys
    dsimp only
    rw [List.map_cons, map_fst_filter_ne]

/-- Witness for C7: capacity 2, keys a, b, c — a is evicted; a hit on a
cached key returns the cached value. -/
theorem c7_lru_cache_policy_witness :
    cacheKeys (cachedCalls (fun _ => (0 : Nat)) (LruCache.mk 2 []) ["a", "b", "c"]) = ["c", "b"]
  ∧ (cachedCall (fun _ => (0 : Nat)) (LruCache.mk 2 [("a", 5), ("b", 7)]) "a").1 = 5 :=
  ⟨(c7_lru_cache_policy.2.1 Nat (fun _ => 0) 2 "a" ["b", "c"] (by decide) rfl).1,
   (c7_lru_cache_policy.2.2 Nat (fun _ => 0) (LruCache.mk 2 [("a", 5), ("b", 7)]) "a" 5 rfl).1⟩

/-- Claim C6: `_load_data` is claimed to locate the file via the fixed path
template, parse it, convert `LabChartTime` to a duration index and memoise
the decoded table.  The code instead always fails once the file is read:
for every filesystem, path and participant whose file exists and parses,
`load_data` raises `AttributeError`, because line 99 of `coarse/client.py`
calls `CsvColumn.index_col()` while `constants.py` defines the classmethod
`CsvColumn.index`.  Concretely: the example file parses, the intended
conversion via the defined `index` name would succeed, yet loading raises,
nothing is cached, and a repeated call decodes again. -/
theorem c6_load_data_raises_attribute_error :
    (∀ (fs : String → Option String) (ppath pid content : String) (raw : RawTable),
        fs (load_file_path ppath pid) = some content →
        parse_pipe_csv content = some raw →
        load_data fs ppath pid =
          .error "AttributeError: type object CsvColumn has no attribute index_col")
  ∧ parse_pipe_csv exampleContent = some exampleRaw
  ∧ set_time_index exampleRaw CsvColumn.index_name =
      .ok ⟨["Participant_ID", "Visit_ID"], [0, 4000000], [["P1", "SV1"], ["P1", "SV1"]]⟩
  ∧ load_data exampleFs "primary" "P1" =
      .error "AttributeError: type object CsvColumn has no attribute index_col"
  ∧ cached_load_data exampleFs "primary" (LruCache.mk MAX_CACHE_SIZE []) "P1"
      = (.error "AttributeError: type object CsvColumn has no attribute index_col",
         LruCache.mk MAX_CACHE_SIZE [], true)
  ∧ (cached_load_data exampleFs "primary"
        (cached_load_data exampleFs "primary" (LruCache.mk MAX_CACHE_SIZE []) "P1").2.1
        "P1").2.2 = true := by
  refine ⟨?_, rfl, rfl, rfl, rfl, rfl⟩
  intro fs ppath pid content raw h1 h2
  unfold load_data
  rw [h1]
  dsimp only
  rw [h2]
  rfl

/-- Witness for C6 at the example filesystem. -/
theorem c6_load_data_raises_attribute_error_witness :
    load_data exampleFs "primary" "P1" =
      .error "AttributeError: type object CsvColumn has no attribute index_col" :=
  c6_load_data_raises_attribute_error.1 exampleFs "primary" "P1" exampleContent
    exampleRaw rfl rfl
